import Mathlib

/-!
Shallow embedding of the sqlgram SQL-to-diagram extraction pipeline
(`src/lib/sqlParser.ts` and the orchestrator `updateDiagram` in the App
component).  JavaScript strings are modelled as `List Char`; the handful of
regular expressions the source uses are implemented as explicit character
scanners with the same matching semantics (leftmost match, greedy/lazy
quantifiers resolved as the concrete patterns force).  The external
`sql-parser-cst` grammar parse together with the AST walk
(`parseCreateTable`/`parseColumn`, which catch their own failures and never
throw) is abstracted as an oracle `String → Except String (List Table)`
returning either the extracted table list or the thrown error's message;
all theorems about the grammar extractor and the orchestrator quantify over
this oracle.
-/

namespace Sqlgram

/-! ## Data model (`sqlParser.ts` interfaces) -/

inductive Severity where
  | error
  | warning
deriving DecidableEq, Repr

structure ForeignKeyRef where
  table : String
  column : String
deriving DecidableEq, Repr

structure TableColumn where
  name : String
  type : String
  nullable : Bool
  primaryKey : Bool
  foreignKey : Option ForeignKeyRef := none
deriving DecidableEq, Repr

structure Table where
  name : String
  columns : List TableColumn
deriving DecidableEq, Repr

structure RelEndpoint where
  table : String
  column : String
deriving DecidableEq, Repr

inductive RelType where
  | oneToOne
  | oneToMany
  | manyToOne
  | manyToMany
deriving DecidableEq, Repr

/-- `Relationship`; the source field `from` and the token `to` are reserved in Lean, embedded as
`from_` and `to_`. -/
structure Relationship where
  from_ : RelEndpoint
  to_ : RelEndpoint
  type : RelType
deriving DecidableEq, Repr

structure SQLError where
  message : String
  line : Nat
  column : Nat
  endLine : Option Nat := none
  endColumn : Option Nat := none
  severity : Severity
deriving DecidableEq, Repr

structure SQLDiagram where
  tables : List Table
  relationships : List Relationship
deriving DecidableEq, Repr

structure SQLParseResult where
  diagram : SQLDiagram
  errors : List SQLError
  isValid : Bool
deriving DecidableEq, Repr

/-- Result of `parseErrorLocation`. -/
structure ErrLoc where
  line : Nat
  column : Nat
  cleanMessage : String
deriving DecidableEq, Repr

/-! ## Character-level helpers (JS string / regex primitives) -/

/-- JS `\s` (the whitespace characters relevant to this codebase). -/
def isWs (c : Char) : Bool :=
  c == ' ' || c == '\t' || c == '\n' || c == '\r' || c == '\x0b' || c == '\x0c'

/-- JS `\w` = `[A-Za-z0-9_]`. -/
def isWordChar (c : Char) : Bool :=
  c.isAlphanum || c == '_'

def upc (c : Char) : Char := c.toUpper

/-- JS `String.prototype.trim`. -/
def jsTrim (s : List Char) : List Char :=
  ((s.dropWhile isWs).reverse.dropWhile isWs).reverse

/-- Case-insensitive literal match: if `s` starts with `pat` (comparing
uppercased characters), return the remainder. -/
def matchCI : List Char → List Char → Option (List Char)
  | [], s => some s
  | _ :: _, [] => none
  | p :: ps, c :: cs => if upc c == upc p then matchCI ps cs else none

/-- Regex `\s+`: at least one whitespace character, consumed greedily. -/
def ws1 : List Char → Option (List Char)
  | [] => none
  | c :: r => if isWs c then some (r.dropWhile isWs) else none

/-- Regex `(\w+)`: a nonempty maximal word-character run. -/
def word1 (s : List Char) : Option (List Char × List Char) :=
  let w := s.takeWhile isWordChar
  if w.isEmpty then none else some (w, s.dropWhile isWordChar)

/-- Exact-prefix test (both sides already in canonical case). -/
def hasPrefixChars : List Char → List Char → Bool
  | _, [] => true
  | [], _ :: _ => false
  | c :: cs, p :: ps => c == p && hasPrefixChars cs ps

/-- JS `String.prototype.includes` on already-uppercased text. -/
def containsSub : List Char → List Char → Bool
  | [], pat => pat.isEmpty
  | c :: r, pat => hasPrefixChars (c :: r) pat || containsSub r pat

/-- Leftmost application of a position matcher (JS regex scan). -/
def findFirstSome {α : Type} (m : List Char → Option α) : List Char → Option α
  | [] => none
  | c :: r =>
    match m (c :: r) with
    | some a => some a
    | none => findFirstSome m r

/-- Leftmost index at which a position predicate matches (JS
`RegExp.exec` match index). -/
def findFirstIdx (m : List Char → Bool) : List Char → Option Nat
  | [] => none
  | c :: r => if m (c :: r) then some 0 else (findFirstIdx m r).map (· + 1)

/-- 1-based line/column of offset `idx`, as computed in `parseSimpleSQL`:
`beforeMatch.split('\n')` gives the line count and the last line's length. -/
def lineColOf (s : List Char) (idx : Nat) : Nat × Nat :=
  let before := s.take idx
  (before.count '\n' + 1, (before.reverse.takeWhile (fun c => c != '\n')).length + 1)

/-! ## Heuristic extractor (`parseSimpleSQL`, `parseSimpleColumns`) -/

/-- Lazy tail of the regex `\(([\s\S]*?)\);`: split at the first occurrence
of `);`, returning the content before it and the remainder after it. -/
def splitAtCloseSemi : List Char → Option (List Char × List Char)
  | ')' :: ';' :: r => some ([], r)
  | c :: r => (splitAtCloseSemi r).map (fun p => (c :: p.1, p.2))
  | [] => none

/-- One attempt of `/CREATE\s+TABLE\s+(\w+)\s*\(([\s\S]*?)\);/i` anchored at
the current position: table name, raw column text, remaining input. -/
def matchCreateTableAt (s : List Char) : Option (String × List Char × List Char) := do
  let s1 ← matchCI "CREATE".data s
  let s2 ← ws1 s1
  let s3 ← matchCI "TABLE".data s2
  let s4 ← ws1 s3
  let (nm, s5) ← word1 s4
  match s5.dropWhile isWs with
  | '(' :: s7 => do
    let (content, rest) ← splitAtCloseSemi s7
    some (String.mk nm, content, rest)
  | _ => none

/-- Global scan of `createTableRegex` (the `while exec` loop): on a match,
resume after the match; otherwise advance one character.  The fuel argument
bounds the number of loop iterations; since every iteration consumes at
least one character, `s.length` iterations always suffice. -/
def scanTablesGo : Nat → List Char → List (String × List Char)
  | 0, _ => []
  | _ + 1, [] => []
  | fuel + 1, c :: r =>
    match matchCreateTableAt (c :: r) with
    | some (nm, content, rest) => (nm, content) :: scanTablesGo fuel rest
    | none => scanTablesGo fuel r

def scanTables (s : List Char) : List (String × List Char) :=
  scanTablesGo s.length s

/-- Lookahead `[^()]*\)` of the split regex `/,(?![^()]*\))/`: the first
parenthesis character after the comma exists and is `)`. -/
def lookaheadCloseParen (r : List Char) : Bool :=
  match r.dropWhile (fun c => c != '(' && c != ')') with
  | ')' :: _ => true
  | _ => false

/-- `columnsText.split(/,(?![^()]*\))/)`: split on commas whose lookahead
fails (accumulator holds the current segment reversed). -/
def splitColsGo : List Char → List Char → List (List Char)
  | acc, [] => [acc.reverse]
  | acc, ',' :: r =>
    if lookaheadCloseParen r then splitColsGo (',' :: acc) r
    else acc.reverse :: splitColsGo [] r
  | acc, c :: r => splitColsGo (c :: acc) r

def splitCols (s : List Char) : List (List Char) :=
  splitColsGo [] s

/-- `columnStr.trim().split(/\s+/)` on a trimmed string: the maximal
non-whitespace runs, in order. -/
def wsSplitGo : List Char → List Char → List (List Char)
  | acc, [] => if acc.isEmpty then [] else [acc.reverse]
  | acc, c :: r =>
    if isWs c then
      if acc.isEmpty then wsSplitGo [] r else acc.reverse :: wsSplitGo [] r
    else wsSplitGo (c :: acc) r

def wsSplit (s : List Char) : List (List Char) :=
  wsSplitGo [] s

/-- Alternation `(PRIMARY\s+KEY|FOREIGN\s+KEY|UNIQUE|CHECK|CONSTRAINT)`,
case-insensitive, anchored at the current position. -/
def constraintKeywordAt (s : List Char) : Bool :=
  (do
    let s1 ← matchCI "PRIMARY".data s
    let s2 ← ws1 s1
    matchCI "KEY".data s2).isSome ||
  (do
    let s1 ← matchCI "FOREIGN".data s
    let s2 ← ws1 s1
    matchCI "KEY".data s2).isSome ||
  (matchCI "UNIQUE".data s).isSome ||
  (matchCI "CHECK".data s).isSome ||
  (matchCI "CONSTRAINT".data s).isSome

/-- `columnStr.match(/^\s*(PRIMARY\s+KEY|FOREIGN\s+KEY|UNIQUE|CHECK|CONSTRAINT)/i)`. -/
def isTableConstraintStart (s : List Char) : Bool :=
  constraintKeywordAt (s.dropWhile isWs)

/-- One attempt of `/REFERENCES\s+(\w+)\s*\((\w+)\)/i` anchored at the
current position, yielding the referenced table and column. -/
def matchReferencesAt (s : List Char) : Option (String × String) := do
  let s1 ← matchCI "REFERENCES".data s
  let s2 ← ws1 s1
  let (tbl, s3) ← word1 s2
  match s3.dropWhile isWs with
  | '(' :: s5 => do
    let (col, s6) ← word1 s5
    match s6 with
    | ')' :: _ => some (String.mk tbl, String.mk col)
    | _ => none
  | _ => none

/-- Body of the `columnStrings.forEach` in `parseSimpleColumns`: a candidate
yields at most one column and never a diagnostic. -/
def parseOneColumn (columnStr : List Char) : Option TableColumn :=
  if (jsTrim columnStr).isEmpty then none
  else if isTableConstraintStart columnStr then none
  else
    match wsSplit (jsTrim columnStr) with
    | p0 :: p1 :: _ =>
      let columnText := columnStr.map upc
      let notNull := containsSub columnText "NOT NULL".data
      let pk := containsSub columnText "PRIMARY KEY".data
      some
        { name := String.mk p0
          type := String.mk p1
          nullable := !(notNull || pk)
          primaryKey := pk
          foreignKey := (findFirstSome matchReferencesAt columnStr).map
            (fun p => { table := p.1, column := p.2 }) }
    | _ => none

def parseSimpleColumns (columnsText : List Char) : List TableColumn :=
  ((splitCols columnsText).map jsTrim).filterMap parseOneColumn

def simpleTables (s : List Char) : List Table :=
  (scanTables s).map (fun p => { name := p.1, columns := parseSimpleColumns p.2 })

/-! ## Relationship classifier (`determineRelationshipType`) -/

def determineRelationshipType (fromTable : Table) (fromColumn : String)
    (toTable : Table) (toColumn : String) : RelType :=
  let fkColumn := fromTable.columns.find? (fun col => col.name == fromColumn)
  let referencedColumn := toTable.columns.find? (fun col => col.name == toColumn)
  if (fkColumn.map TableColumn.primaryKey).getD false then
    RelType.oneToOne
  else if (referencedColumn.map TableColumn.primaryKey).getD false then
    if fromTable.columns.all (fun col => col.foreignKey.isSome || col.primaryKey)
        && decide (2 ≤ (fromTable.columns.filter (fun col => col.foreignKey.isSome)).length) then
      RelType.manyToMany
    else
      RelType.manyToOne
  else
    RelType.manyToOne

/-- The `relationships.forEach` reclassification pass shared by both
extractors: reclassify only when both endpoint tables resolve by name. -/
def recomputeOne (tables : List Table) (rel : Relationship) : Relationship :=
  match tables.find? (fun t => t.name == rel.from_.table),
        tables.find? (fun t => t.name == rel.to_.table) with
  | some ft, some tt => { rel with
      type := determineRelationshipType ft rel.from_.column tt rel.to_.column }
  | _, _ => rel

def recomputeRels (tables : List Table) (rels : List Relationship) : List Relationship :=
  rels.map (recomputeOne tables)

/-- Relationship collection of `parseSimpleSQL`: one relationship per
foreign-key column, target presence not checked, placeholder type
`many-to-one`. -/
def initialRels (tables : List Table) : List Relationship :=
  (tables.map (fun t =>
    t.columns.filterMap (fun col =>
      col.foreignKey.map (fun fk =>
        { from_ := { table := t.name, column := col.name }
          to_ := { table := fk.table, column := fk.column }
          type := RelType.manyToOne })))).flatten

def parenErrors (s : List Char) : List SQLError :=
  if s.count '(' ≠ s.count ')' then
    [{ message := "Unmatched parentheses in SQL", line := 1, column := 1,
       severity := Severity.error }]
  else []

def isCreateTabelAt (s : List Char) : Bool :=
  (do
    let s1 ← matchCI "CREATE".data s
    let s2 ← ws1 s1
    matchCI "TABEL".data s2).isSome

def isPrimryKeyAt (s : List Char) : Bool :=
  (do
    let s1 ← matchCI "PRIMRY".data s
    let s2 ← ws1 s1
    matchCI "KEY".data s2).isSome

def isRefrencesAt (s : List Char) : Bool :=
  (matchCI "REFRENCES".data s).isSome

def isForignKeyAt (s : List Char) : Bool :=
  (do
    let s1 ← matchCI "FORIGN".data s
    let s2 ← ws1 s1
    matchCI "KEY".data s2).isSome

/-- One entry of the `commonTypos.forEach`: first match of the pattern, with
line/column derived from the match offset, severity `warning`. -/
def mkTypoError (s : List Char) (m : List Char → Bool) (msg : String) : Option SQLError :=
  (findFirstIdx m s).map (fun idx =>
    let lc := lineColOf s idx
    { message := msg, line := lc.1, column := lc.2, severity := Severity.warning })

def typoErrors (s : List Char) : List SQLError :=
  [mkTypoError s isCreateTabelAt "Did you mean CREATE TABLE?",
   mkTypoError s isPrimryKeyAt "Did you mean PRIMARY KEY?",
   mkTypoError s isRefrencesAt "Did you mean REFERENCES?",
   mkTypoError s isForignKeyAt "Did you mean FOREIGN KEY?"].filterMap id

/-- Diagnostics of `parseSimpleSQL` in push order: the paren-imbalance error
first, then the typo warnings. -/
def simpleErrors (s : List Char) : List SQLError :=
  parenErrors s ++ typoErrors s

/-- `parseSimpleSQL`.  The `let` bindings of the source are inlined; the
`try` block of the source cannot throw (its body is regex scanning and list
pushes), so the `catch` branch is dead and not modelled. -/
def parseSimpleSQL (sqlCode : String) : SQLParseResult :=
  if (jsTrim sqlCode.data).isEmpty then
    { diagram := { tables := [], relationships := [] }, errors := [], isValid := true }
  else
    { diagram :=
        { tables := simpleTables sqlCode.data
          relationships := recomputeRels (simpleTables sqlCode.data)
            (initialRels (simpleTables sqlCode.data)) }
      errors := simpleErrors sqlCode.data
      isValid := (simpleErrors sqlCode.data).isEmpty }

/-! ## Error locator (`parseErrorLocation`) -/

def digitsVal (ds : List Char) : Nat :=
  ds.foldl (fun n c => n * 10 + (c.toNat - '0'.toNat)) 0

/-- Regex `(\d+)`: nonempty maximal digit run, as a number. -/
def digits1 (s : List Char) : Option (Nat × List Char) :=
  let ds := s.takeWhile Char.isDigit
  if ds.isEmpty then none else some (digitsVal ds, s.dropWhile Char.isDigit)

/-- Regex `(\d+):(\d+)` anchored at the current position. -/
def digitsPair (s : List Char) : Option (Nat × Nat) := do
  let (a, s1) ← digits1 s
  match s1 with
  | ':' :: s2 =>
    let (b, _) ← digits1 s2
    some (a, b)
  | _ => none

/-- Backtracking over `(?:\w*:)?(\d+):(\d+)`: `wrev` is the (reversed)
still-consumed part of the greedy `\w*`; longest consumption is tried first,
then shorter ones, finally the group absent alternative. -/
def tryLocGroup : List Char → List Char → Option (Nat × Nat)
  | [], rest =>
    (match rest with
     | ':' :: r2 => digitsPair r2
     | _ => none).orElse (fun _ => digitsPair rest)
  | c :: wrev2, rest =>
    match (match rest with
           | ':' :: r2 => digitsPair r2
           | _ => none) with
    | some p => some p
    | none => tryLocGroup wrev2 (c :: rest)

/-- One attempt of the location regex `-->` `\s*(?:\w*:)?(\d+):(\d+)` anchored
at the current position. -/
def matchArrowAt : List Char → Option (Nat × Nat)
  | '-' :: '-' :: '>' :: r =>
    let r2 := r.dropWhile isWs
    tryLocGroup (r2.takeWhile isWordChar).reverse (r2.dropWhile isWordChar)
  | _ => none

/-- Alternation `(?:\s*-->|\s*Was expecting|\s*$)` tested at the current
position (no multiline flag, so `$` is the end of input). -/
def altAt (s : List Char) : Bool :=
  let r := s.dropWhile isWs
  (match r with
   | '-' :: '-' :: '>' :: _ => true
   | _ => false)
  || hasPrefixChars r "Was expecting".data || r.isEmpty

/-- Lazy group `^([^-\n]+?)` of the clean-message regex: grow the capture one
character at a time (each must avoid `-` and newline) until the trailing
alternation matches. -/
def cleanMsgGo : List Char → List Char → Option (List Char)
  | _, [] => none
  | acc, c :: r =>
    if c == '-' || c == '\n' then none
    else if altAt r then some (c :: acc).reverse
    else cleanMsgGo (c :: acc) r

def cleanMsgMatch (s : List Char) : Option (List Char) :=
  cleanMsgGo [] s

def parseErrorLocation (errorMessage : String) : ErrLoc :=
  let lc := (findFirstSome matchArrowAt errorMessage.data).getD (1, 1)
  { line := lc.1
    column := lc.2
    cleanMessage :=
      match cleanMsgMatch errorMessage.data with
      | some g => String.mk (jsTrim g)
      | none => errorMessage }

/-! ## Grammar extractor (`parseSQLToDiagram`) -/

/-- Relationship collection of `parseSQLToDiagram`: one relationship per
foreign-key column whose target table resolves by name; unresolved targets
are skipped. -/
def buildRels1 (tables : List Table) : List Relationship :=
  (tables.map (fun t =>
    t.columns.filterMap (fun col =>
      match col.foreignKey with
      | some fk =>
        match tables.find? (fun t2 => t2.name == fk.table) with
        | some refT => some
            { from_ := { table := t.name, column := col.name }
              to_ := { table := fk.table, column := fk.column }
              type := determineRelationshipType t col.name refT fk.column }
        | none => none
      | none => none))).flatten

/-- The `catch` branch of `parseSQLToDiagram`: `error.message || 'SQL parsing
failed'` (the empty string models a falsy message), located through
`parseErrorLocation`. -/
def grammarFailureError (rawMsg : String) : SQLError :=
  let message := if rawMsg = "" then "SQL parsing failed" else rawMsg
  let loc := parseErrorLocation message
  { message := loc.cleanMessage, line := loc.line, column := loc.column,
    severity := Severity.error }

/-- `parseSQLToDiagram`, with the external grammar parse plus AST walk
abstracted as `grammarParse` (see the file header).  The oracle failure
corresponds to the `parse` call throwing, which happens before any table is
collected, so the catch branch returns an empty diagram. -/
def parseSQLToDiagram (grammarParse : String → Except String (List Table))
    (sqlCode : String) : SQLParseResult :=
  if (jsTrim sqlCode.data).isEmpty then
    { diagram := { tables := [], relationships := [] }, errors := [], isValid := true }
  else
    match grammarParse sqlCode with
    | Except.ok tables =>
      { diagram := { tables := tables, relationships := recomputeRels tables (buildRels1 tables) }
        errors := []
        isValid := true }
    | Except.error rawMsg =>
      { diagram := { tables := [], relationships := [] }
        errors := [grammarFailureError rawMsg]
        isValid := false }

/-! ## Orchestrator (`updateDiagram` in the App component) -/

/-- `updateDiagram`, returning the `{diagram, errors, isValid}` triple pushed
into component state.  The source `let` bindings are inlined.  Both
extractors are total in the embedding (each catches its own failures in the
source), so the orchestrator catch/fallback branches for a throwing
extractor are dead and not modelled. -/
def updateDiagram (grammarParse : String → Except String (List Table))
    (sqlCode : String) : SQLParseResult :=
  if (jsTrim sqlCode.data).isEmpty then
    { diagram := { tables := [], relationships := [] }, errors := [], isValid := true }
  else
    if (parseSQLToDiagram grammarParse sqlCode).diagram.tables.length == 0
        && (parseSQLToDiagram grammarParse sqlCode).isValid then
      if 0 < (parseSimpleSQL sqlCode).diagram.tables.length then
        parseSimpleSQL sqlCode
      else
        parseSQLToDiagram grammarParse sqlCode
    else
      parseSQLToDiagram grammarParse sqlCode

/-! ## Concrete inputs used by witnesses and counterexamples -/

def sqlTabelW : String := "CREATE TABEL foo (id INT);"

def sqlDanglingW : String :=
  "CREATE TABLE posts (id INT PRIMARY KEY, user_id INT REFERENCES users(id));"

def oracleBoomW : String → Except String (List Table) := fun _ => Except.error "boom"

def oracleLocW : String → Except String (List Table) :=
  fun _ => Except.error "Syntax error --> 1:7"

def oracleEmptyOkW : String → Except String (List Table) := fun _ => Except.ok []

def usersTableW : Table :=
  { name := "users", columns := parseSimpleColumns "id INT PRIMARY KEY".data }

def profilesTableW : Table :=
  { name := "profiles",
    columns := parseSimpleColumns "user_id INT PRIMARY KEY REFERENCES users(id)".data }

def postsTableW : Table :=
  { name := "posts", columns := parseSimpleColumns "id INT PRIMARY KEY".data }

def postCategoriesTableW : Table :=
  { name := "post_categories",
    columns := parseSimpleColumns
      "post_id INTEGER REFERENCES posts(id), category_id INTEGER REFERENCES categories(id), PRIMARY KEY (post_id, category_id)".data }

def relDanglingW : Relationship :=
  { from_ := { table := "posts", column := "user_id" },
    to_ := { table := "users", column := "id" },
    type := RelType.manyToOne }

/-! ## Helper lemmas -/

theorem parseSimpleSQL_isValid_eq (sqlCode : String) :
    (parseSimpleSQL sqlCode).isValid = (parseSimpleSQL sqlCode).errors.isEmpty := by
  unfold parseSimpleSQL
  split <;> rfl

theorem parseSQLToDiagram_isValid_eq (grammarParse : String → Except String (List Table))
    (sqlCode : String) :
    (parseSQLToDiagram grammarParse sqlCode).isValid
      = (parseSQLToDiagram grammarParse sqlCode).errors.isEmpty := by
  unfold parseSQLToDiagram
  split
  · rfl
  · split <;> rfl

theorem parseSimpleSQL_of_trim_empty (sqlCode : String)
    (h : (jsTrim sqlCode.data).isEmpty = true) :
    parseSimpleSQL sqlCode =
      { diagram := { tables := [], relationships := [] }, errors := [], isValid := true } := by
  unfold parseSimpleSQL
  rw [if_pos h]

theorem parseSimpleSQL_of_trim_nonempty (sqlCode : String)
    (h : (jsTrim sqlCode.data).isEmpty = false) :
    parseSimpleSQL sqlCode =
      { diagram :=
          { tables := simpleTables sqlCode.data
            relationships := recomputeRels (simpleTables sqlCode.data)
              (initialRels (simpleTables sqlCode.data)) }
        errors := simpleErrors sqlCode.data
        isValid := (simpleErrors sqlCode.data).isEmpty } := by
  unfold parseSimpleSQL
  rw [if_neg (by simp [h])]

theorem recomputeOne_from (tables : List Table) (rel : Relationship) :
    (recomputeOne tables rel).from_ = rel.from_ := by
  unfold recomputeOne
  cases h1 : tables.find? (fun t => t.name == rel.from_.table) <;>
    cases h2 : tables.find? (fun t => t.name == rel.to_.table) <;> rfl

theorem recomputeOne_to (tables : List Table) (rel : Relationship) :
    (recomputeOne tables rel).to_ = rel.to_ := by
  unfold recomputeOne
  cases h1 : tables.find? (fun t => t.name == rel.from_.table) <;>
    cases h2 : tables.find? (fun t => t.name == rel.to_.table) <;> rfl

theorem recomputeOne_of_target_missing {tables : List Table} {rel : Relationship}
    (h : tables.find? (fun t => t.name == rel.to_.table) = none) :
    recomputeOne tables rel = rel := by
  unfold recomputeOne
  rw [h]
  cases h1 : tables.find? (fun t => t.name == rel.from_.table) <;> rfl

theorem mem_recomputeRels {tables : List Table} {rels : List Relationship} {rel : Relationship}
    (h : rel ∈ recomputeRels tables rels) :
    ∃ rel0 ∈ rels, rel = recomputeOne tables rel0 := by
  rcases List.mem_map.mp h with ⟨rel0, h0, heq⟩
  exact ⟨rel0, h0, heq.symm⟩

theorem initialRels_mem {tables : List Table} {t : Table} {col : TableColumn}
    {fk : ForeignKeyRef} (ht : t ∈ tables) (hc : col ∈ t.columns)
    (hfk : col.foreignKey = some fk) :
    ({ from_ := { table := t.name, column := col.name }
       to_ := { table := fk.table, column := fk.column }
       type := RelType.manyToOne } : Relationship) ∈ initialRels tables := by
  unfold initialRels
  refine List.mem_flatten.mpr ⟨_, List.mem_map_of_mem _ ht, ?_⟩
  exact List.mem_filterMap.mpr ⟨col, hc, by rw [hfk]; rfl⟩

theorem initialRels_type {tables : List Table} {rel : Relationship}
    (h : rel ∈ initialRels tables) : rel.type = RelType.manyToOne := by
  unfold initialRels at h
  rcases List.mem_flatten.mp h with ⟨l, hl, hrel⟩
  rcases List.mem_map.mp hl with ⟨t, _, rfl⟩
  rcases List.mem_filterMap.mp hrel with ⟨col, _, hsome⟩
  rcases Option.map_eq_some'.mp hsome with ⟨fk, _, heq⟩
  rw [← heq]

theorem buildRels1_target {tables : List Table} {rel : Relationship}
    (h : rel ∈ buildRels1 tables) :
    ∃ t ∈ tables, t.name = rel.to_.table := by
  unfold buildRels1 at h
  rcases List.mem_flatten.mp h with ⟨l, hl, hrel⟩
  rcases List.mem_map.mp hl with ⟨t, _, rfl⟩
  rcases List.mem_filterMap.mp hrel with ⟨col, _, hsome⟩
  cases hfk : col.foreignKey with
  | none => simp only [hfk] at hsome; exact Option.noConfusion hsome
  | some fk =>
    simp only [hfk] at hsome
    cases hfind : tables.find? (fun t2 => t2.name == fk.table) with
    | none => simp only [hfind] at hsome; exact Option.noConfusion hsome
    | some refT =>
      simp only [hfind, Option.some.injEq] at hsome
      have hname := List.find?_some hfind
      simp only [beq_iff_eq] at hname
      refine ⟨refT, List.mem_of_find?_eq_some hfind, ?_⟩
      rw [← hsome]
      exact hname

/-! ## Claim theorems -/

/-- C1: for every input string and every behaviour of the external grammar
parse, the pipeline is total and well-formed: `updateDiagram` returns one of
the three always-defined results (the trivial empty result, the grammar
extractor's result, or the heuristic extractor's result), and each of the
three functions returns a `{diagram, errors, isValid}` triple whose
`isValid` flag agrees with emptiness of its error list; no exception
reaches the caller (every partial operation of the source is caught inside
the extractors, which the embedding reflects by making all three functions
total). -/
theorem pipeline_total_wellformed (grammarParse : String → Except String (List Table))
    (sqlCode : String) :
    (updateDiagram grammarParse sqlCode =
        { diagram := { tables := [], relationships := [] }, errors := [], isValid := true }
      ∨ updateDiagram grammarParse sqlCode = parseSQLToDiagram grammarParse sqlCode
      ∨ updateDiagram grammarParse sqlCode = parseSimpleSQL sqlCode)
    ∧ (updateDiagram grammarParse sqlCode).isValid
        = (updateDiagram grammarParse sqlCode).errors.isEmpty
    ∧ (parseSQLToDiagram grammarParse sqlCode).isValid
        = (parseSQLToDiagram grammarParse sqlCode).errors.isEmpty
    ∧ (parseSimpleSQL sqlCode).isValid = (parseSimpleSQL sqlCode).errors.isEmpty := by
  have hcases :
      updateDiagram grammarParse sqlCode =
          { diagram := { tables := [], relationships := [] }, errors := [], isValid := true }
        ∨ updateDiagram grammarParse sqlCode = parseSQLToDiagram grammarParse sqlCode
        ∨ updateDiagram grammarParse sqlCode = parseSimpleSQL sqlCode := by
    unfold updateDiagram
    split
    · exact Or.inl rfl
    · split
      · split
        · exact Or.inr (Or.inr rfl)
        · exact Or.inr (Or.inl rfl)
      · exact Or.inr (Or.inl rfl)
  refine ⟨hcases, ?_, parseSQLToDiagram_isValid_eq _ _, parseSimpleSQL_isValid_eq _⟩
  rcases hcases with h | h | h <;> rw [h]
  · rfl
  · exact parseSQLToDiagram_isValid_eq _ _
  · exact parseSimpleSQL_isValid_eq _

/-- C2: when the grammar extractor succeeds on nonempty input with zero
tables and `isValid = true`, the orchestrator returns the heuristic result
exactly when the heuristic extractor found at least one table, and otherwise
keeps the grammar extractor's valid empty result; and a grammar result with
at least one table is never replaced by the heuristic result. -/
theorem orchestrator_fallback_policy (grammarParse : String → Except String (List Table))
    (sqlCode : String) :
    ((jsTrim sqlCode.data).isEmpty = false →
      (parseSQLToDiagram grammarParse sqlCode).diagram.tables.length = 0 →
      (parseSQLToDiagram grammarParse sqlCode).isValid = true →
      (0 < (parseSimpleSQL sqlCode).diagram.tables.length →
        updateDiagram grammarParse sqlCode = parseSimpleSQL sqlCode)
      ∧ ((parseSimpleSQL sqlCode).diagram.tables.length = 0 →
        updateDiagram grammarParse sqlCode = parseSQLToDiagram grammarParse sqlCode))
    ∧ (0 < (parseSQLToDiagram grammarParse sqlCode).diagram.tables.length →
      updateDiagram grammarParse sqlCode = parseSQLToDiagram grammarParse sqlCode) := by
  constructor
  · intro h0 h1 h2
    unfold updateDiagram
    rw [if_neg (by simp [h0])]
    have hc : ((parseSQLToDiagram grammarParse sqlCode).diagram.tables.length == 0
        && (parseSQLToDiagram grammarParse sqlCode).isValid) = true := by
      rw [h1, h2]; rfl
    rw [if_pos hc]
    constructor
    · intro h3
      rw [if_pos h3]
    · intro h4
      rw [if_neg (by rw [h4]; exact Nat.lt_irrefl 0)]
  · intro h
    unfold updateDiagram
    split
    · rename_i hemp
      rw [parseSQLToDiagram, if_pos hemp]
    · split
      · rename_i hcond
        simp only [Bool.and_eq_true, beq_iff_eq] at hcond
        omega
      · rfl

/-- C2 witness: grammar succeeds with zero tables on `"SELECT 1"` and the
heuristic extractor also finds none, so the orchestrator keeps the grammar
result. -/
theorem orchestrator_fallback_policy_witness :
    updateDiagram oracleEmptyOkW "SELECT 1" = parseSQLToDiagram oracleEmptyOkW "SELECT 1" :=
  ((orchestrator_fallback_policy oracleEmptyOkW "SELECT 1").1
    (by decide) (by decide) (by decide)).2 (by decide)

/-- C3 (amended): in `parseSimpleSQL`, `isValid` is `true` iff the `errors`
list is empty; since warning diagnostics are pushed into the same list,
warnings do affect validity. -/
theorem simple_isValid_iff_no_diagnostics (sqlCode : String) :
    (parseSimpleSQL sqlCode).isValid = true ↔ (parseSimpleSQL sqlCode).errors = [] := by
  rw [parseSimpleSQL_isValid_eq]
  exact List.isEmpty_iff

/-- C3 counterexample: on `CREATE TABEL foo (id INT);` the heuristic
extractor produces only warning-severity diagnostics, yet returns
`isValid = false`, refuting the claim that warnings never affect
validity. -/
theorem simple_warning_still_invalidates :
    (parseSimpleSQL sqlTabelW).errors.all (fun e => e.severity == Severity.warning) = true
    ∧ (parseSimpleSQL sqlTabelW).errors ≠ []
    ∧ (parseSimpleSQL sqlTabelW).isValid = false := by
  decide

/-- C9: on input whose trim is empty (the empty string and every
whitespace-only string), both extractors return the empty diagram with no
errors and `isValid = true`, for every behaviour of the external grammar
parse (i.e. without attempting a parse). -/
theorem empty_input_identity (grammarParse : String → Except String (List Table))
    (sqlCode : String) (h : (jsTrim sqlCode.data).isEmpty = true) :
    parseSQLToDiagram grammarParse sqlCode =
      { diagram := { tables := [], relationships := [] }, errors := [], isValid := true }
    ∧ parseSimpleSQL sqlCode =
      { diagram := { tables := [], relationships := [] }, errors := [], isValid := true } := by
  constructor
  · unfold parseSQLToDiagram
    rw [if_pos h]
  · exact parseSimpleSQL_of_trim_empty _ h

/-- C9 witness: the whitespace-only input `"   \n\t"`, with a grammar oracle
that would fail if it were consulted. -/
theorem empty_input_identity_witness :
    parseSQLToDiagram oracleBoomW "   \n\t" =
      { diagram := { tables := [], relationships := [] }, errors := [], isValid := true }
    ∧ parseSimpleSQL "   \n\t" =
      { diagram := { tables := [], relationships := [] }, errors := [], isValid := true } :=
  empty_input_identity oracleBoomW "   \n\t" (by decide)

/-- C10: a column-candidate string that is not a table-level constraint and
whose trimmed text splits into fewer than two whitespace-delimited tokens
yields no column at all (`parseOneColumn` returns `none`, and the column
parser has no diagnostic channel), rather than a column with fallback type
`"unknown"`. -/
theorem short_column_candidate_skipped (columnStr : List Char)
    (h1 : isTableConstraintStart columnStr = false)
    (h2 : (wsSplit (jsTrim columnStr)).length < 2) :
    parseOneColumn columnStr = none := by
  unfold parseOneColumn
  split
  · rfl
  · rw [if_neg (by simp [h1])]
    split
    · rename_i p0 p1 rest heq
      rw [heq] at h2
      exact absurd h2 (by simp)
    · rfl

/-- C10 witness: the bare identifier `justaname` is silently skipped. -/
theorem short_column_candidate_skipped_witness :
    isTableConstraintStart "justaname".data = false
    ∧ (wsSplit (jsTrim "justaname".data)).length < 2
    ∧ parseOneColumn "justaname".data = none :=
  ⟨by decide, by decide, short_column_candidate_skipped _ (by decide) (by decide)⟩

/-- C5: whenever the grammar parse throws on nonempty input, the grammar
extractor catches the failure and returns an empty diagram, exactly one
error-severity diagnostic whose line, column and message are produced by
`parseErrorLocation` (applied to the thrown message, with the
`'SQL parsing failed'` fallback for a falsy message), and
`isValid = false`. -/
theorem grammar_failure_single_error (grammarParse : String → Except String (List Table))
    (sqlCode msg : String)
    (h0 : (jsTrim sqlCode.data).isEmpty = false)
    (h1 : grammarParse sqlCode = Except.error msg) :
    parseSQLToDiagram grammarParse sqlCode =
      { diagram := { tables := [], relationships := [] }
        errors := [grammarFailureError msg]
        isValid := false } := by
  unfold parseSQLToDiagram
  rw [if_neg (by simp [h0]), h1]

/-- C5 witness: a grammar failure whose message carries a location marker;
the single diagnostic is located at the marker and carries the cleaned
message. -/
theorem grammar_failure_single_error_witness :
    parseSQLToDiagram oracleLocW "CREATE TABL" =
      { diagram := { tables := [], relationships := [] }
        errors := [{ message := "Syntax error", line := 1, column := 7,
                     severity := Severity.error }]
        isValid := false } := by
  have h := grammar_failure_single_error oracleLocW "CREATE TABL" "Syntax error --> 1:7"
    (by decide) rfl
  rw [h]
  decide

/-- C6: if the classified foreign-key column is not a primary key of the
source table, the referenced column is a primary key of the target table,
every column of the source table carries a foreign key or is a primary key,
and at least two of its columns carry a foreign key, then
`determineRelationshipType` returns `many-to-many`. -/
theorem junction_table_many_to_many (fromTable : Table) (fromColumn : String)
    (toTable : Table) (toColumn : String)
    (h1 : ((fromTable.columns.find? (fun col => col.name == fromColumn)).map
      TableColumn.primaryKey).getD false = false)
    (h2 : ((toTable.columns.find? (fun col => col.name == toColumn)).map
      TableColumn.primaryKey).getD false = true)
    (h3 : fromTable.columns.all (fun col => col.foreignKey.isSome || col.primaryKey) = true)
    (h4 : 2 ≤ (fromTable.columns.filter (fun col => col.foreignKey.isSome)).length) :
    determineRelationshipType fromTable fromColumn toTable toColumn = RelType.manyToMany := by
  unfold determineRelationshipType
  rw [if_neg (by simp [h1]), if_pos h2, if_pos (by rw [h3, decide_eq_true h4]; rfl)]

/-- C6 witness: `post_categories(post_id FK, category_id FK)` as extracted by
the heuristic column parser (the composite `PRIMARY KEY (post_id,
category_id)` is a table-level constraint and marks neither column as a
primary key), classified against `posts(id PK)`, yields `many-to-many`. -/
theorem junction_table_many_to_many_witness :
    determineRelationshipType postCategoriesTableW "post_id" postsTableW "id"
      = RelType.manyToMany :=
  junction_table_many_to_many postCategoriesTableW "post_id" postsTableW "id"
    (by decide) (by decide) (by decide) (by decide)

/-- C7: if the column named `fromColumn` of the source table is marked as a
primary key, `determineRelationshipType` returns `one-to-one`, with no
assumption on the target table or on the shape of the source table (the
rule precedes all others). -/
theorem pk_fk_classifies_one_to_one (fromTable : Table) (fromColumn : String)
    (toTable : Table) (toColumn : String)
    (h : ((fromTable.columns.find? (fun col => col.name == fromColumn)).map
      TableColumn.primaryKey).getD false = true) :
    determineRelationshipType fromTable fromColumn toTable toColumn = RelType.oneToOne := by
  unfold determineRelationshipType
  rw [if_pos h]

/-- C7 witness: `profiles(user_id PK, FK to users.id)` as extracted by the
heuristic column parser, classified against `users(id PK)`, yields
`one-to-one` even though `users` is also a candidate for the other rules. -/
theorem pk_fk_classifies_one_to_one_witness :
    determineRelationshipType profilesTableW "user_id" usersTableW "id" = RelType.oneToOne :=
  pk_fk_classifies_one_to_one profilesTableW "user_id" usersTableW "id" (by decide)

/-- C4 (amended): when the grammar parser fails on nonempty input (as it
does on `CREATE TABEL ...`), the orchestrator keeps the grammar extractor's
error result and does not take the heuristic branch, because the fallback
condition requires the grammar result to be valid; the heuristic extractor
itself, when run on input whose text matches the `CREATE TABEL` typo
pattern, does produce a warning-severity diagnostic suggesting
`CREATE TABLE` whose line and column are computed from the match offset. -/
theorem grammar_failure_keeps_error_heuristic_warns
    (grammarParse : String → Except String (List Table)) (sqlCode msg : String) :
    ((jsTrim sqlCode.data).isEmpty = false → grammarParse sqlCode = Except.error msg →
      updateDiagram grammarParse sqlCode = parseSQLToDiagram grammarParse sqlCode)
    ∧ (∀ idx, (jsTrim sqlCode.data).isEmpty = false →
        findFirstIdx isCreateTabelAt sqlCode.data = some idx →
        ({ message := "Did you mean CREATE TABLE?"
           line := (lineColOf sqlCode.data idx).1
           column := (lineColOf sqlCode.data idx).2
           endLine := none
           endColumn := none
           severity := Severity.warning } : SQLError) ∈ (parseSimpleSQL sqlCode).errors) := by
  constructor
  · intro h0 h1
    have hv : (parseSQLToDiagram grammarParse sqlCode).isValid = false := by
      unfold parseSQLToDiagram
      rw [if_neg (by simp [h0]), h1]
    unfold updateDiagram
    rw [if_neg (by simp [h0]), if_neg (by simp [hv])]
  · intro idx h0 hidx
    rw [parseSimpleSQL_of_trim_nonempty _ h0]
    refine List.mem_append.mpr (Or.inr ?_)
    unfold typoErrors
    refine List.mem_filterMap.mpr
      ⟨mkTypoError sqlCode.data isCreateTabelAt "Did you mean CREATE TABLE?",
       List.mem_cons_self _ _, ?_⟩
    unfold mkTypoError
    rw [hidx]
    rfl

/-- C4 counterexample: on `CREATE TABEL foo (id INT);`, with the grammar
parse failing as the claim presumes, the pipeline result contains no
warning-severity diagnostic at all (it is the grammar extractor's single
error): the claimed typo warning does not reach the final result. -/
theorem pipeline_tabel_yields_no_warning :
    (updateDiagram oracleBoomW sqlTabelW).errors.all
      (fun e => e.severity == Severity.error) = true
    ∧ (updateDiagram oracleBoomW sqlTabelW).errors.length = 1
    ∧ (updateDiagram oracleBoomW sqlTabelW).errors.all
      (fun e => e.message != "Did you mean CREATE TABLE?") = true := by
  decide

/-- C4 witness: on the same `CREATE TABEL` input the orchestrator keeps the
grammar error result, while a direct run of the heuristic extractor contains
the warning located at offset 0 (line 1, column 1). -/
theorem grammar_failure_keeps_error_heuristic_warns_witness :
    updateDiagram oracleBoomW sqlTabelW = parseSQLToDiagram oracleBoomW sqlTabelW
    ∧ ({ message := "Did you mean CREATE TABLE?"
         line := (lineColOf sqlTabelW.data 0).1
         column := (lineColOf sqlTabelW.data 0).2
         endLine := none
         endColumn := none
         severity := Severity.warning } : SQLError) ∈ (parseSimpleSQL sqlTabelW).errors :=
  ⟨(grammar_failure_keeps_error_heuristic_warns oracleBoomW sqlTabelW "boom").1
      (by decide) rfl,
   (grammar_failure_keeps_error_heuristic_warns oracleBoomW sqlTabelW "boom").2 0
      (by decide) (by decide)⟩

/-- C8: every relationship returned by the grammar extractor has its target
table present in the returned table list, for every oracle behaviour; the
heuristic extractor emits a relationship for every foreign-key column of
every extracted table regardless of target presence; and any heuristic
relationship whose target table is absent from the extracted tables keeps
the creation-time placeholder type `many-to-one`. -/
theorem relationship_target_asymmetry (grammarParse : String → Except String (List Table))
    (sqlCode : String) :
    (∀ rel ∈ (parseSQLToDiagram grammarParse sqlCode).diagram.relationships,
      ∃ t ∈ (parseSQLToDiagram grammarParse sqlCode).diagram.tables, t.name = rel.to_.table)
    ∧ (∀ t ∈ (parseSimpleSQL sqlCode).diagram.tables, ∀ col ∈ t.columns, ∀ fk,
        col.foreignKey = some fk →
        ∃ rel ∈ (parseSimpleSQL sqlCode).diagram.relationships,
          rel.from_ = { table := t.name, column := col.name }
          ∧ rel.to_ = { table := fk.table, column := fk.column })
    ∧ (∀ rel ∈ (parseSimpleSQL sqlCode).diagram.relationships,
        (∀ t ∈ (parseSimpleSQL sqlCode).diagram.tables, t.name ≠ rel.to_.table) →
        rel.type = RelType.manyToOne) := by
  refine ⟨?_, ?_, ?_⟩
  · unfold parseSQLToDiagram
    split
    · intro rel hrel
      exact absurd hrel (List.not_mem_nil rel)
    · cases hg : grammarParse sqlCode with
      | ok tables =>
        intro rel hrel
        rcases mem_recomputeRels hrel with ⟨rel0, h0, rfl⟩
        rw [recomputeOne_to]
        exact buildRels1_target h0
      | error msg =>
        intro rel hrel
        exact absurd hrel (List.not_mem_nil rel)
  · cases hemp : (jsTrim sqlCode.data).isEmpty with
    | true =>
      rw [parseSimpleSQL_of_trim_empty _ hemp]
      intro t ht
      exact absurd ht (List.not_mem_nil t)
    | false =>
      rw [parseSimpleSQL_of_trim_nonempty _ hemp]
      intro t ht col hc fk hfk
      refine ⟨recomputeOne (simpleTables sqlCode.data)
        { from_ := { table := t.name, column := col.name }
          to_ := { table := fk.table, column := fk.column }
          type := RelType.manyToOne },
        List.mem_map_of_mem _ (initialRels_mem ht hc hfk), ?_, ?_⟩
      · rw [recomputeOne_from]
      · rw [recomputeOne_to]
  · cases hemp : (jsTrim sqlCode.data).isEmpty with
    | true =>
      rw [parseSimpleSQL_of_trim_empty _ hemp]
      intro rel hrel
      exact absurd hrel (List.not_mem_nil rel)
    | false =>
      rw [parseSimpleSQL_of_trim_nonempty _ hemp]
      intro rel hrel habs
      rcases mem_recomputeRels hrel with ⟨rel0, h0, rfl⟩
      rw [recomputeOne_to] at habs
      have hfind : (simpleTables sqlCode.data).find?
          (fun t => t.name == rel0.to_.table) = none := by
        rw [List.find?_eq_none]
        intro t ht hbeq
        exact habs t ht (by simpa using hbeq)
      rw [recomputeOne_of_target_missing hfind]
      exact initialRels_type h0

/-- C8 witness: `CREATE TABLE posts (..., user_id INT REFERENCES users(id));`
with no `users` table extracted: the heuristic extractor still emits the
relationship, and it keeps type `many-to-one`. -/
theorem relationship_target_asymmetry_witness :
    relDanglingW ∈ (parseSimpleSQL sqlDanglingW).diagram.relationships
    ∧ relDanglingW.type = RelType.manyToOne :=
  ⟨by decide,
   (relationship_target_asymmetry oracleBoomW sqlDanglingW).2.2 relDanglingW
     (by decide) (by decide)⟩
